import Mathlib

/-!
Verification of the `StructuredSearchEngine` in
`openkaito/search/structured_search_engine.py`.

The Python code is shallowly embedded: JSON request/response bodies become the
`Json` inductive; Python dicts become association lists in insertion order;
calls into the Elasticsearch client, the ranking models and the Twitter
crawler become function fields of the engine record returning `Except`, where
`Except.error` stands for a raised Python exception; `try/except` blocks
become `match` over those `Except` values.
-/

namespace OpenKaito

/-- JSON-like values, modelling Python dict/list/str/int/bool literals used by
the engine.  Objects keep their fields in insertion order, as Python dicts do. -/
inductive Json where
  | null : Json
  | num (n : Int) : Json
  | str (s : String) : Json
  | bool (b : Bool) : Json
  | arr (xs : List Json) : Json
  | obj (fields : List (String × Json)) : Json
deriving Repr

/-- A Python dict with string keys, e.g. a document `_source`. -/
abbrev Doc := List (String × Json)

/-- `SortType` enum from `openkaito/protocol.py`. -/
inductive SortType where
  | RELEVANCE : SortType
  | RECENCY : SortType
deriving DecidableEq, Repr

/-- A search request (`SearchSynapse` or `StructuredSearchSynapse`).  The basic
variant has `name = "SearchSynapse"` and leaves `sort_type` and the timestamp
bounds at `none`; the structured variant has `name = "StructuredSearchSynapse"`.
The engine only ever inspects these five attributes plus `name`. -/
structure SearchQuery where
  name : String
  query_string : String
  size : Int
  sort_type : Option SortType
  earlier_than_timestamp : Option Int
  later_than_timestamp : Option Int
deriving DecidableEq, Repr

/-- A ranking model: `rank(query_string, candidates)` may raise (`Except.error`). -/
structure RankingModel where
  rank : String → List Doc → Except String (List Doc)

/-- The optional Twitter crawler capability: `search(query_string, max_size)`. -/
structure TwitterCrawler where
  search : String → Int → Except String (List Doc)

/-- A bulk write issued to the search client: the `body` argument and the
`refresh` flag of one `search_client.bulk(body=…, refresh=…)` call. -/
structure BulkCall where
  body : List Json
  refresh : Bool

/-- The engine with its collaborators.  `search_client_search i b` models
`search_client.search(index=i, body=b)` and yields the list of `_source`
dicts of the response hits (`response["hits"]["hits"][k]["_source"]`), or
`Except.error` when the call (or the response field access) raises.
`search_client_bulk body refresh` models `search_client.bulk(body=…,
refresh=…)`, yielding the response dict or a raised exception. -/
structure StructuredSearchEngine where
  search_client_search : String → Json → Except String (List Doc)
  search_client_bulk : List Json → Bool → Except String Json
  relevance_ranking_model : RankingModel
  recency_ranking_model : RankingModel
  recall_size : Int
  twitter_crawler : Option TwitterCrawler

/-- Python truthiness of an optional integer attribute:
`if search_query.earlier_than_timestamp:` is `False` for `None` and for `0`. -/
def truthyInt : Option Int → Bool
  | none => false
  | some n => n != 0

/-- The constant first `must` clause of every recall query:
the `query_string` full-text clause over field `text` with AND semantics. -/
def base_must_clause (query_string : String) : Json :=
  Json.obj [("query_string", Json.obj
    [("query", Json.str query_string),
     ("default_field", Json.str "text"),
     ("default_operator", Json.str "AND")])]

/-- The `time_filter` dict built in `recall` for a structured query:
`lte` is inserted when `earlier_than_timestamp` is truthy, then `gte` when
`later_than_timestamp` is truthy. -/
def time_filter (search_query : SearchQuery) : List (String × Json) :=
  (match search_query.earlier_than_timestamp with
   | some n => if n != 0 then [("lte", Json.num n)] else []
   | none => []) ++
  (match search_query.later_than_timestamp with
   | some n => if n != 0 then [("gte", Json.num n)] else []
   | none => [])

/-- The `must` list of the recall query after the conditional
`es_query["query"]["bool"]["must"].append({"range": …})` step. -/
def must_clauses (search_query : SearchQuery) : List Json :=
  let must := [base_must_clause search_query.query_string]
  if search_query.name = "StructuredSearchSynapse" then
    let tf := time_filter search_query
    if tf.isEmpty then must
    else must ++ [Json.obj [("range", Json.obj [("created_at", Json.obj tf)])]]
  else must

/-- The full `es_query` body sent by `recall`, including the conditional
server-side `sort` key added for structured recency queries. -/
def recall_es_query (search_query : SearchQuery) (recall_size : Int) : Json :=
  let base :=
    [("query", Json.obj [("bool", Json.obj [("must", Json.arr (must_clauses search_query))])]),
     ("size", Json.num recall_size)]
  if search_query.name = "StructuredSearchSynapse" ∧
      search_query.sort_type = some SortType.RECENCY then
    Json.obj (base ++ [("sort", Json.arr [Json.obj [("created_at", Json.str "desc")]])])
  else
    Json.obj base

/-- The nine projected document fields, in the order the dict literal in
`twitter_doc_mapper` evaluates them. -/
def twitter_doc_fields : List String :=
  ["id", "text", "created_at", "username", "url",
   "quote_count", "reply_count", "retweet_count", "favorite_count"]

/-- Python `doc[k]`: the value, or a raised `KeyError` for a missing key. -/
def dictGet (doc : Doc) (k : String) : Except String Json :=
  match doc.lookup k with
  | some v => Except.ok v
  | none => Except.error ("KeyError: " ++ k)

/-- `twitter_doc_mapper`: projects exactly the nine known fields of a raw
document; raises `KeyError` at the first missing field. -/
def twitter_doc_mapper (doc : Doc) : Except String Doc := do
  let i ← dictGet doc "id"
  let t ← dictGet doc "text"
  let c ← dictGet doc "created_at"
  let u ← dictGet doc "username"
  let l ← dictGet doc "url"
  let q ← dictGet doc "quote_count"
  let r ← dictGet doc "reply_count"
  let w ← dictGet doc "retweet_count"
  let f ← dictGet doc "favorite_count"
  return [("id", i), ("text", t), ("created_at", c), ("username", u), ("url", l),
          ("quote_count", q), ("reply_count", r), ("retweet_count", w),
          ("favorite_count", f)]

/-- The mapping loop in `recall`: appends `twitter_doc_mapper` of each hit in
order; the first raised `KeyError` aborts the loop (and is caught by the
surrounding `try`). -/
def map_hits : List Doc → Except String (List Doc)
  | [] => Except.ok []
  | d :: ds => do
      let m ← twitter_doc_mapper d
      let ms ← map_hits ds
      return m :: ms

/-- `recall(search_query, recall_size)`: builds the query, runs it via the
search client, and maps the hits; any exception raised inside the `try`
block (the client call or a `KeyError` while mapping) yields `[]`. -/
def StructuredSearchEngine.recall (e : StructuredSearchEngine) (search_query : SearchQuery)
    (recall_size : Int) : List Doc :=
  match e.search_client_search "twitter" (recall_es_query search_query recall_size) with
  | Except.error _ => []
  | Except.ok hits =>
      match map_hits hits with
      | Except.ok results => results
      | Except.error _ => []

/-- Which ranking model the `search` dispatcher selects. -/
inductive RankingChoice where
  | relevance : RankingChoice
  | recency : RankingChoice
deriving DecidableEq, Repr

/-- The dispatcher condition of `search`: the recency ranking model is used
iff `search_query.name == "StructuredSearchSynapse" and
search_query.sort_type == SortType.RECENCY`. -/
def ranking_choice (search_query : SearchQuery) : RankingChoice :=
  if search_query.name = "StructuredSearchSynapse" ∧
      search_query.sort_type = some SortType.RECENCY then
    RankingChoice.recency
  else
    RankingChoice.relevance

/-- The ranking model `search` invokes, per `ranking_choice`. -/
def selected_ranking_model (e : StructuredSearchEngine)
    (search_query : SearchQuery) : RankingModel :=
  match ranking_choice search_query with
  | RankingChoice.recency => e.recency_ranking_model
  | RankingChoice.relevance => e.relevance_ranking_model

/-- Python list slicing `xs[:n]` (also for negative `n`, where it keeps
`max 0 (len + n)` elements). -/
def pySliceTo (xs : List Doc) (n : Int) : List Doc :=
  if 0 ≤ n then xs.take n.toNat
  else xs.take (xs.length - (-n).toNat)

/-- `search(search_query)`: recall, rank with the dispatched model, truncate
to `search_query.size`.  The ranking invocation is not guarded, so a raised
ranking exception propagates (`Except.error`). -/
def StructuredSearchEngine.search (e : StructuredSearchEngine) (search_query : SearchQuery) :
    Except String (List Doc) :=
  let result_size := search_query.size
  let recalled_items := e.recall search_query e.recall_size
  match (selected_ranking_model e search_query).rank
      search_query.query_string recalled_items with
  | Except.error err => Except.error err
  | Except.ok results => Except.ok (pySliceTo results result_size)

/-- The fixed nine-field mapping body passed to
`search_client.indices.create(index="twitter", body=…)`. -/
def twitter_index_body : Json :=
  Json.obj [("mappings", Json.obj [("properties", Json.obj
    [("id", Json.obj [("type", Json.str "long")]),
     ("text", Json.obj [("type", Json.str "text")]),
     ("created_at", Json.obj [("type", Json.str "date")]),
     ("username", Json.obj [("type", Json.str "keyword")]),
     ("url", Json.obj [("type", Json.str "text")]),
     ("quote_count", Json.obj [("type", Json.str "long")]),
     ("reply_count", Json.obj [("type", Json.str "long")]),
     ("retweet_count", Json.obj [("type", Json.str "long")]),
     ("favorite_count", Json.obj [("type", Json.str "long")])])])]

/-- The indices of the Elasticsearch backend, as seen through
`indices.exists` / `indices.create`: each existing index name with its
mapping body. -/
structure StoreState where
  indices : List (String × Json)

/-- `init_indices`: issues `indices.exists(index="twitter")` and, only when it
reports absence, `indices.create` with the fixed mapping.  Returns the store
state after the call together with the list of `(index, body)` create calls
issued. -/
def init_indices (s : StoreState) : StoreState × List (String × Json) :=
  let index_name := "twitter"
  if (s.indices.lookup index_name).isSome then
    (s, [])
  else
    ({ indices := s.indices ++ [(index_name, twitter_index_body)] },
     [(index_name, twitter_index_body)])

/-- The crawl step `self.twitter_crawler.search(query_string, max_size)`:
when the crawler is `None`, the attribute access raises (`AttributeError`);
otherwise the crawler's own call may raise or return documents. -/
def crawl_step (crawler : Option TwitterCrawler) (query_string : String)
    (max_size : Int) : Except String (List Doc) :=
  match crawler with
  | none => Except.error "AttributeError: NoneType has no attribute search"
  | some c => c.search query_string max_size

/-- The `bulk_body` list built by `crawl_and_index_data`: for each crawled
document, an `update` directive on index `"twitter"` keyed by `doc["id"]`,
then the body `{"doc": doc, "doc_as_upsert": True}`; `doc["id"]` raises
`KeyError` when absent. -/
def build_bulk_body : List Doc → Except String (List Json)
  | [] => Except.ok []
  | doc :: docs => do
      let i ← dictGet doc "id"
      let rest ← build_bulk_body docs
      return Json.obj [("update", Json.obj [("_index", Json.str "twitter"), ("_id", i)])]
        :: Json.obj [("doc", Json.obj doc), ("doc_as_upsert", Json.bool true)]
        :: rest

/-- `crawl_and_index_data(query_string, max_size)`: crawl (any exception,
including the `AttributeError` on a missing crawler, is caught and the batch
treated as empty), then, for a non-empty batch, build the bulk body and call
`search_client.bulk(body=bulk_body, refresh=True)` inside a `try` whose
handler swallows any exception; the response's `errors` flag is only logged.
The method returns `None` in Python; here it returns the list of bulk calls
issued to the store, its only observable effect.  Every fallible step is an
`Except` matched on both branches, so the method never raises. -/
def StructuredSearchEngine.crawl_and_index_data (e : StructuredSearchEngine)
    (query_string : String) (max_size : Int) : List BulkCall :=
  let processed_docs :=
    match crawl_step e.twitter_crawler query_string max_size with
    | Except.ok docs => docs
    | Except.error _ => []
  if processed_docs.length > 0 then
    match build_bulk_body processed_docs with
    | Except.error _ => []
    | Except.ok bulk_body =>
        match e.search_client_bulk bulk_body true with
        | Except.ok _r => [{ body := bulk_body, refresh := true }]
        | Except.error _ => [{ body := bulk_body, refresh := true }]
  else []

/-! ### Concrete fixtures used to instantiate the theorems -/

/-- A ranking model that returns its candidates unchanged. -/
def okRankModel : RankingModel := ⟨fun _ docs => Except.ok docs⟩

/-- A ranking model whose `rank` always raises. -/
def failRankModel : RankingModel := ⟨fun _ _ => Except.error "ranking boom"⟩

/-- A well-formed stored document carrying exactly the nine projected fields. -/
def sampleDoc : Doc :=
  [("id", Json.num 1), ("text", Json.str "alpha"), ("created_at", Json.num 100),
   ("username", Json.str "u"), ("url", Json.str "http"), ("quote_count", Json.num 0),
   ("reply_count", Json.num 2), ("retweet_count", Json.num 3), ("favorite_count", Json.num 4)]

/-- A malformed stored document: it has an `id` but no `text` field. -/
def badDoc : Doc := [("id", Json.num 2)]

/-- A basic-variant request (`SearchSynapse`). -/
def sampleQuery : SearchQuery :=
  { name := "SearchSynapse", query_string := "alpha", size := 5,
    sort_type := none, earlier_than_timestamp := none, later_than_timestamp := none }

/-- A structured request asking for recency order. -/
def recencyQuery : SearchQuery :=
  { name := "StructuredSearchSynapse", query_string := "alpha", size := 5,
    sort_type := some SortType.RECENCY,
    earlier_than_timestamp := none, later_than_timestamp := none }

/-- A structured request with both timestamp bounds set (non-zero). -/
def bothBoundsQuery : SearchQuery :=
  { name := "StructuredSearchSynapse", query_string := "btc", size := 5,
    sort_type := none, earlier_than_timestamp := some 200, later_than_timestamp := some 100 }

/-- A structured request whose `earlier_than_timestamp` is declared but `0`. -/
def zeroBoundQuery : SearchQuery :=
  { name := "StructuredSearchSynapse", query_string := "btc", size := 5,
    sort_type := none, earlier_than_timestamp := some 0, later_than_timestamp := none }

/-- A healthy bulk response with `errors: false`. -/
def okBulkResponse : List Json → Bool → Except String Json :=
  fun _ _ => Except.ok (Json.obj [("errors", Json.bool false)])

/-- An engine whose store returns one well-formed hit; no crawler. -/
def sampleEngine : StructuredSearchEngine :=
  { search_client_search := fun _ _ => Except.ok [sampleDoc],
    search_client_bulk := okBulkResponse,
    relevance_ranking_model := okRankModel,
    recency_ranking_model := okRankModel,
    recall_size := 50,
    twitter_crawler := none }

/-- An engine whose store raises on every query. -/
def downEngine : StructuredSearchEngine :=
  { search_client_search := fun _ _ => Except.error "es down",
    search_client_bulk := okBulkResponse,
    relevance_ranking_model := okRankModel,
    recency_ranking_model := okRankModel,
    recall_size := 50,
    twitter_crawler := none }

/-- An engine whose ranking models always raise. -/
def failRankEngine : StructuredSearchEngine :=
  { search_client_search := fun _ _ => Except.ok [sampleDoc],
    search_client_bulk := okBulkResponse,
    relevance_ranking_model := failRankModel,
    recency_ranking_model := failRankModel,
    recall_size := 50,
    twitter_crawler := none }

/-- An engine whose store returns one well-formed and one malformed hit. -/
def badHitEngine : StructuredSearchEngine :=
  { search_client_search := fun _ _ => Except.ok [sampleDoc, badDoc],
    search_client_bulk := okBulkResponse,
    relevance_ranking_model := okRankModel,
    recency_ranking_model := okRankModel,
    recall_size := 50,
    twitter_crawler := none }

/-- A crawler that always returns the single document `sampleDoc`. -/
def sampleCrawler : TwitterCrawler := ⟨fun _ _ => Except.ok [sampleDoc]⟩

/-- The bulk body `crawl_and_index_data` builds for the batch `[sampleDoc]`. -/
def sampleBulkBody : List Json :=
  [Json.obj [("update", Json.obj [("_index", Json.str "twitter"), ("_id", Json.num 1)])],
   Json.obj [("doc", Json.obj sampleDoc), ("doc_as_upsert", Json.bool true)]]

/-- An engine equipped with `sampleCrawler`. -/
def crawlEngine : StructuredSearchEngine :=
  { search_client_search := fun _ _ => Except.ok [],
    search_client_bulk := okBulkResponse,
    relevance_ranking_model := okRankModel,
    recency_ranking_model := okRankModel,
    recall_size := 50,
    twitter_crawler := some sampleCrawler }

/-- The range clause shape the spec describes for the `must` list:
`{"range": {"created_at": bounds}}`. -/
def range_clause (bounds : List (String × Json)) : Json :=
  Json.obj [("range", Json.obj [("created_at", Json.obj bounds)])]

/-- The pair of bulk operations the spec describes for one crawled document:
an update-by-id directive on index `twitter` followed by the document body
with `doc_as_upsert` set. -/
def spec_bulk_ops (doc : Doc) : List Json :=
  [Json.obj [("update", Json.obj [("_index", Json.str "twitter"),
     ("_id", (doc.lookup "id").getD Json.null)])],
   Json.obj [("doc", Json.obj doc), ("doc_as_upsert", Json.bool true)]]

/-! ### Unfolding lemmas -/

/-- Bind of a successful `Except` (definitional). -/
theorem except_ok_bind {α β : Type} (a : α) (f : α → Except String β) :
    (Except.ok a >>= f) = f a := rfl

/-- Bind of a raised `Except` (definitional). -/
theorem except_error_bind {α β : Type} (msg : String) (f : α → Except String β) :
    ((Except.error msg : Except String α) >>= f) = Except.error msg := rfl

/-- A bound `Except` chain succeeds iff both steps succeed. -/
theorem except_bind_ok {α β : Type} (x : Except String α) (f : α → Except String β) (b : β) :
    (x >>= f) = Except.ok b ↔ ∃ a, x = Except.ok a ∧ f a = Except.ok b := by
  cases x with
  | error e => simp [except_error_bind]
  | ok a => simp [except_ok_bind]

/-- `dictGet` succeeds exactly on present keys. -/
theorem dictGet_eq_ok (doc : Doc) (k : String) (v : Json) :
    dictGet doc k = Except.ok v ↔ doc.lookup k = some v := by
  unfold dictGet
  cases doc.lookup k <;> simp

/-- Key lookup skips a prefix in which the key is absent. -/
theorem lookup_append_of_none (l₁ l₂ : List (String × Json)) (k : String)
    (h : l₁.lookup k = none) : (l₁ ++ l₂).lookup k = l₂.lookup k := by
  induction l₁ with
  | nil => simp
  | cons p l ih =>
      cases p with
      | mk a v =>
          simp only [List.lookup, List.cons_append] at h ⊢
          cases hk : (k == a) with
          | true => rw [hk] at h; simp at h
          | false =>
              rw [hk] at h
              exact ih h

/-- `search` unfolded to its match on the ranking call (definitional). -/
theorem search_eq (e : StructuredSearchEngine) (q : SearchQuery) :
    e.search q =
      match (selected_ranking_model e q).rank q.query_string
          (e.recall q e.recall_size) with
      | Except.error err => Except.error err
      | Except.ok results => Except.ok (pySliceTo results q.size) := rfl

/-! ### Claims -/

/-- **C1.** For every search request with a non-negative integer size, the list
returned by `search(request)` has length at most `request.size`: search recalls
candidates, ranks them, and truncates the ranked sequence to the first
`request.size` elements. -/
theorem spec_C1_search_length_le_size (e : StructuredSearchEngine)
    (q : SearchQuery) (h : 0 ≤ q.size) (r : List Doc)
    (hr : e.search q = Except.ok r) : (r.length : Int) ≤ q.size := by
  rw [search_eq] at hr
  cases hrank : (selected_ranking_model e q).rank q.query_string
      (e.recall q e.recall_size) with
  | error err => rw [hrank] at hr; cases hr
  | ok results =>
      rw [hrank] at hr
      have hr' : pySliceTo results q.size = r := by
        simpa using hr
      have hlen : r.length ≤ q.size.toNat := by
        rw [← hr']
        unfold pySliceTo
        rw [if_pos h]
        exact results.length_take_le q.size.toNat
      calc (r.length : Int) ≤ (q.size.toNat : Int) := by exact_mod_cast hlen
    _ = q.size := Int.toNat_of_nonneg h

/-- Witness for C1 at a concrete engine and request. -/
theorem spec_C1_search_length_le_size_witness :
    (([sampleDoc].length : Int)) ≤ sampleQuery.size :=
  spec_C1_search_length_le_size sampleEngine sampleQuery (by norm_num [sampleQuery])
    [sampleDoc] rfl

/-- **C2.** For every request, search uses the recency ranking model if and
only if the request's name equals `"StructuredSearchSynapse"` and its
`sort_type` equals `RECENCY`; in every other case it uses the externally
supplied relevance ranking model.  In particular, a basic-variant request
never selects recency ranking. -/
theorem spec_C2_ranking_dispatch (q : SearchQuery) :
    (ranking_choice q = RankingChoice.recency ↔
      (q.name = "StructuredSearchSynapse" ∧ q.sort_type = some SortType.RECENCY)) ∧
    (ranking_choice q = RankingChoice.relevance ↔
      ¬(q.name = "StructuredSearchSynapse" ∧ q.sort_type = some SortType.RECENCY)) ∧
    (q.name ≠ "StructuredSearchSynapse" → ranking_choice q = RankingChoice.relevance) := by
  unfold ranking_choice
  refine ⟨?_, ?_, ?_⟩
  · split <;> simp_all
  · split <;> simp_all
  · intro hn; split <;> simp_all

/-- Witness for C2: a basic-variant request selects relevance ranking. -/
theorem spec_C2_ranking_dispatch_witness :
    ranking_choice sampleQuery = RankingChoice.relevance :=
  (spec_C2_ranking_dispatch sampleQuery).2.2 (by decide)

/-- **C3.** For every request, if the store's query execution raises any
exception, `recall` catches it and returns the empty list — recall never
propagates an exception — and consequently `search(request)` returns an empty
result list rather than raising (given the ranking capability's contract that
ranking an empty candidate list yields an empty list). -/
theorem spec_C3_store_error_degrades_to_empty (e : StructuredSearchEngine)
    (q : SearchQuery) (msg : String)
    (hstore : e.search_client_search "twitter" (recall_es_query q e.recall_size) =
      Except.error msg)
    (hrank : (selected_ranking_model e q).rank q.query_string [] = Except.ok []) :
    e.recall q e.recall_size = [] ∧ e.search q = Except.ok [] := by
  have hrec : e.recall q e.recall_size = [] := by
    unfold StructuredSearchEngine.recall
    rw [hstore]
  refine ⟨hrec, ?_⟩
  rw [search_eq, hrec, hrank]
  show Except.ok (pySliceTo [] q.size) = Except.ok []
  unfold pySliceTo
  split <;> simp

/-- Witness for C3 at an engine whose store always raises. -/
theorem spec_C3_store_error_degrades_to_empty_witness :
    downEngine.recall sampleQuery downEngine.recall_size = [] ∧
    downEngine.search sampleQuery = Except.ok [] :=
  spec_C3_store_error_degrades_to_empty downEngine sampleQuery "es down" rfl rfl

/-- **C5.** When no crawling capability is configured
(`twitter_crawler is None`), `crawl_and_index_data` is a no-op with respect to
the store — no bulk write is issued — and it does not raise to the caller (the
function is total: the `AttributeError` raised by calling `.search` on `None`
is caught by the crawl `try`, leaving an empty batch), for every
`query_string` and `max_size`. -/
theorem spec_C5_no_crawler_no_bulk (e : StructuredSearchEngine)
    (query_string : String) (max_size : Int) (h : e.twitter_crawler = none) :
    e.crawl_and_index_data query_string max_size = [] := by
  simp [StructuredSearchEngine.crawl_and_index_data, crawl_step, h]

/-- Witness for C5 at a concrete engine with no crawler. -/
theorem spec_C5_no_crawler_no_bulk_witness :
    sampleEngine.crawl_and_index_data "alpha" 10 = [] :=
  spec_C5_no_crawler_no_bulk sampleEngine "alpha" 10 rfl

/-- **C7.** For every request, if the selected ranking model's `rank` call
raises an exception, `search` propagates that exception to its caller
unchanged — the ranking invocation is not guarded by any local error
handling, unlike `recall`. -/
theorem spec_C7_ranking_error_propagates (e : StructuredSearchEngine)
    (q : SearchQuery) (msg : String)
    (hrank : (selected_ranking_model e q).rank q.query_string
      (e.recall q e.recall_size) = Except.error msg) :
    e.search q = Except.error msg := by
  rw [search_eq, hrank]

/-- Witness for C7 at an engine whose ranking model raises. -/
theorem spec_C7_ranking_error_propagates_witness :
    failRankEngine.search sampleQuery = Except.error "ranking boom" :=
  spec_C7_ranking_error_propagates failRankEngine sampleQuery "ranking boom" rfl

/-- **C4, counterexample.** The claim says the range filter carries
`lte = earlier_than_timestamp` whenever that bound is declared.  For the
structured request `zeroBoundQuery`, which declares
`earlier_than_timestamp = 0`, the code omits the bound entirely: the `must`
list is the bare full-text clause and contains no range filter at all. -/
theorem spec_C4_counterexample_zero_bound :
    must_clauses zeroBoundQuery = [base_must_clause "btc"] ∧
    range_clause [("lte", Json.num 0)] ∉ must_clauses zeroBoundQuery := by
  constructor
  · rfl
  · intro hmem
    simp [must_clauses, time_filter, zeroBoundQuery, base_must_clause,
      range_clause] at hmem

/-- **C4, amended.** For every structured-variant request, the backend query's
`must` list carries a range filter on `created_at` whose `lte` equals
`earlier_than_timestamp` when that bound is declared *with a non-zero
(truthy) value*, and whose `gte` equals `later_than_timestamp` when that
bound is declared with a non-zero value, appended after the full-text clause;
when neither bound is truthy (absent or zero) the range filter is entirely
absent.  For basic-variant requests no range filter is ever added. -/
theorem spec_C4_range_filter (q : SearchQuery) :
    (q.name = "StructuredSearchSynapse" →
      (∀ n m, q.earlier_than_timestamp = some n → n ≠ 0 →
        q.later_than_timestamp = some m → m ≠ 0 →
        must_clauses q = [base_must_clause q.query_string,
          range_clause [("lte", Json.num n), ("gte", Json.num m)]]) ∧
      (∀ n, q.earlier_than_timestamp = some n → n ≠ 0 →
        truthyInt q.later_than_timestamp = false →
        must_clauses q = [base_must_clause q.query_string,
          range_clause [("lte", Json.num n)]]) ∧
      (∀ m, truthyInt q.earlier_than_timestamp = false →
        q.later_than_timestamp = some m → m ≠ 0 →
        must_clauses q = [base_must_clause q.query_string,
          range_clause [("gte", Json.num m)]]) ∧
      (truthyInt q.earlier_than_timestamp = false →
        truthyInt q.later_than_timestamp = false →
        must_clauses q = [base_must_clause q.query_string])) ∧
    (q.name ≠ "StructuredSearchSynapse" →
      must_clauses q = [base_must_clause q.query_string]) := by
  constructor
  · intro hname
    refine ⟨?_, ?_, ?_, ?_⟩
    · intro n m hn hn0 hm hm0
      simp [must_clauses, time_filter, range_clause, hname, hn, hm, hn0, hm0]
    · intro n hn hn0 hlater
      cases hm : q.later_than_timestamp with
      | none => simp [must_clauses, time_filter, range_clause, hname, hn, hn0, hm]
      | some m =>
          rw [hm] at hlater
          simp only [truthyInt] at hlater
          have hm0 : m = 0 := by simpa using hlater
          simp [must_clauses, time_filter, range_clause, hname, hn, hn0, hm, hm0]
    · intro m hearlier hm hm0
      cases hn : q.earlier_than_timestamp with
      | none => simp [must_clauses, time_filter, range_clause, hname, hm, hm0, hn]
      | some n =>
          rw [hn] at hearlier
          simp only [truthyInt] at hearlier
          have hn0 : n = 0 := by simpa using hearlier
          simp [must_clauses, time_filter, range_clause, hname, hm, hm0, hn, hn0]
    · intro hearlier hlater
      cases hn : q.earlier_than_timestamp with
      | none =>
          cases hm : q.later_than_timestamp with
          | none => simp [must_clauses, time_filter, hname, hn, hm]
          | some m =>
              rw [hm] at hlater
              simp only [truthyInt] at hlater
              have hm0 : m = 0 := by simpa using hlater
              simp [must_clauses, time_filter, hname, hn, hm, hm0]
      | some n =>
          rw [hn] at hearlier
          simp only [truthyInt] at hearlier
          have hn0 : n = 0 := by simpa using hearlier
          cases hm : q.later_than_timestamp with
          | none => simp [must_clauses, time_filter, hname, hn, hn0, hm]
          | some m =>
              rw [hm] at hlater
              simp only [truthyInt] at hlater
              have hm0 : m = 0 := by simpa using hlater
              simp [must_clauses, time_filter, hname, hn, hn0, hm, hm0]
  · intro hname
    simp [must_clauses, hname]

/-- Witness for C4 (amended) at a structured request with both bounds set. -/
theorem spec_C4_range_filter_witness :
    must_clauses bothBoundsQuery = [base_must_clause "btc",
      range_clause [("lte", Json.num 200), ("gte", Json.num 100)]] :=
  ((spec_C4_range_filter bothBoundsQuery).1 rfl).1 200 100 rfl (by decide) rfl (by decide)

/-- **C8.** Index initialization is idempotent: `init_indices` creates the
index named `"twitter"` with the fixed nine-field mapping only when the store
reports the index does not exist; when the index already exists it issues no
create call and raises no error, so running it a second time leaves the store
unchanged. -/
theorem spec_C8_init_indices_idempotent (s : StoreState) :
    ((s.indices.lookup "twitter").isSome = true → init_indices s = (s, [])) ∧
    (s.indices.lookup "twitter" = none →
      init_indices s =
        ({ indices := s.indices ++ [("twitter", twitter_index_body)] },
         [("twitter", twitter_index_body)])) ∧
    init_indices (init_indices s).1 = ((init_indices s).1, []) := by
  refine ⟨?_, ?_, ?_⟩
  · intro h
    simp [init_indices, h]
  · intro h
    simp [init_indices, h]
  · cases h : s.indices.lookup "twitter" with
    | some v =>
        have h1 : init_indices s = (s, []) := by simp [init_indices, h]
        rw [h1]
        simp [init_indices, h]
    | none =>
        have h1 : init_indices s =
            ({ indices := s.indices ++ [("twitter", twitter_index_body)] },
             [("twitter", twitter_index_body)]) := by
          simp [init_indices, h]
        rw [h1]
        have h2 : (s.indices ++ [("twitter", twitter_index_body)]).lookup "twitter" =
            some twitter_index_body := by
          rw [lookup_append_of_none _ _ _ h]
          simp [List.lookup]
        simp [init_indices, h2]

/-- Witness for C8 at the empty store: the first run creates the index, the
second is a no-op. -/
theorem spec_C8_init_indices_idempotent_witness :
    init_indices ⟨[]⟩ =
      ({ indices := [("twitter", twitter_index_body)] },
       [("twitter", twitter_index_body)]) :=
  (spec_C8_init_indices_idempotent ⟨[]⟩).2.1 rfl

/-- **C9.** Timestamp bounds are tested by truthiness, not presence: for a
request whose `earlier_than_timestamp` or `later_than_timestamp` equals `0`,
that bound is omitted from the range filter exactly as if it were absent — the
backend query, and hence the recall result, is identical to the one for the
request with the bound unset. -/
theorem spec_C9_zero_bound_is_absent (e : StructuredSearchEngine)
    (q : SearchQuery) (rs : Int) :
    (recall_es_query { q with earlier_than_timestamp := some 0 } rs =
       recall_es_query { q with earlier_than_timestamp := none } rs ∧
     e.recall { q with earlier_than_timestamp := some 0 } rs =
       e.recall { q with earlier_than_timestamp := none } rs) ∧
    (recall_es_query { q with later_than_timestamp := some 0 } rs =
       recall_es_query { q with later_than_timestamp := none } rs ∧
     e.recall { q with later_than_timestamp := some 0 } rs =
       e.recall { q with later_than_timestamp := none } rs) := by
  have h1 : recall_es_query { q with earlier_than_timestamp := some 0 } rs =
      recall_es_query { q with earlier_than_timestamp := none } rs := by
    simp [recall_es_query, must_clauses, time_filter]
  have h2 : recall_es_query { q with later_than_timestamp := some 0 } rs =
      recall_es_query { q with later_than_timestamp := none } rs := by
    simp [recall_es_query, must_clauses, time_filter]
  refine ⟨⟨h1, ?_⟩, h2, ?_⟩
  · unfold StructuredSearchEngine.recall
    rw [h1]
  · unfold StructuredSearchEngine.recall
    rw [h2]

/-- A successful `build_bulk_body` yields, for each document in order, the
update directive / upsert body pair the spec describes. -/
theorem build_bulk_body_eq_flatMap (docs : List Doc) (body : List Json)
    (h : build_bulk_body docs = Except.ok body) :
    body = docs.flatMap spec_bulk_ops := by
  induction docs generalizing body with
  | nil =>
      simp only [build_bulk_body] at h
      cases h
      simp
  | cons d ds ih =>
      unfold build_bulk_body at h
      rw [except_bind_ok] at h
      obtain ⟨i, hi, h⟩ := h
      rw [except_bind_ok] at h
      obtain ⟨rest, hrest, h⟩ := h
      have hi' : d.lookup "id" = some i := (dictGet_eq_ok d "id" i).mp hi
      have hbody : body =
          Json.obj [("update", Json.obj [("_index", Json.str "twitter"), ("_id", i)])]
            :: Json.obj [("doc", Json.obj d), ("doc_as_upsert", Json.bool true)]
            :: rest := by
        simpa [pure, Except.pure] using h.symm
      subst hbody
      simp [spec_bulk_ops, hi', ih rest hrest]

/-- A successful `twitter_doc_mapper` run means every one of the nine
projected fields is present in the raw document. -/
theorem twitter_doc_mapper_ok_lookup (d : Doc) (m : Doc)
    (h : twitter_doc_mapper d = Except.ok m) :
    ∀ f ∈ twitter_doc_fields, (d.lookup f).isSome = true := by
  unfold twitter_doc_mapper at h
  rw [except_bind_ok] at h; obtain ⟨v1, h1, h⟩ := h
  rw [except_bind_ok] at h; obtain ⟨v2, h2, h⟩ := h
  rw [except_bind_ok] at h; obtain ⟨v3, h3, h⟩ := h
  rw [except_bind_ok] at h; obtain ⟨v4, h4, h⟩ := h
  rw [except_bind_ok] at h; obtain ⟨v5, h5, h⟩ := h
  rw [except_bind_ok] at h; obtain ⟨v6, h6, h⟩ := h
  rw [except_bind_ok] at h; obtain ⟨v7, h7, h⟩ := h
  rw [except_bind_ok] at h; obtain ⟨v8, h8, h⟩ := h
  rw [except_bind_ok] at h; obtain ⟨v9, h9, _⟩ := h
  intro f hf
  simp only [twitter_doc_fields, List.mem_cons, List.not_mem_nil, or_false] at hf
  rcases hf with rfl | rfl | rfl | rfl | rfl | rfl | rfl | rfl | rfl
  · rw [(dictGet_eq_ok d _ v1).mp h1]; rfl
  · rw [(dictGet_eq_ok d _ v2).mp h2]; rfl
  · rw [(dictGet_eq_ok d _ v3).mp h3]; rfl
  · rw [(dictGet_eq_ok d _ v4).mp h4]; rfl
  · rw [(dictGet_eq_ok d _ v5).mp h5]; rfl
  · rw [(dictGet_eq_ok d _ v6).mp h6]; rfl
  · rw [(dictGet_eq_ok d _ v7).mp h7]; rfl
  · rw [(dictGet_eq_ok d _ v8).mp h8]; rfl
  · rw [(dictGet_eq_ok d _ v9).mp h9]; rfl

/-- If any hit in the response fails the field projection, the whole mapping
loop raises. -/
theorem map_hits_error_of_mem (hits : List Doc) (d : Doc) (hd : d ∈ hits)
    (hbad : ∀ m, twitter_doc_mapper d ≠ Except.ok m) :
    ∃ msg, map_hits hits = Except.error msg := by
  induction hits with
  | nil => cases hd
  | cons x xs ih =>
      rcases List.mem_cons.mp hd with rfl | hmem
      · cases hx : twitter_doc_mapper d with
        | error msg =>
            refine ⟨msg, ?_⟩
            unfold map_hits
            rw [hx, except_error_bind]
        | ok m => exact absurd hx (hbad m)
      · cases hx : twitter_doc_mapper x with
        | error msg =>
            refine ⟨msg, ?_⟩
            unfold map_hits
            rw [hx, except_error_bind]
        | ok m =>
            obtain ⟨msg, hmsg⟩ := ih hmem
            refine ⟨msg, ?_⟩
            unfold map_hits
            rw [hx, except_ok_bind, hmsg, except_error_bind]

/-- **C6.** For every non-empty crawled batch, `crawl_and_index_data` builds a
bulk body that, for each document in order, pairs an `update` directive keyed
by the document's id on index `"twitter"` with a body containing the document
and `doc_as_upsert` set to true; it executes the bulk call with `refresh`
enabled; and whatever the bulk response or any exception raised during the
bulk write (the engine's `search_client_bulk` is universally quantified
here), `crawl_and_index_data` does not raise to its caller and returns no
value — its only effect is the single bulk call. -/
theorem spec_C6_bulk_upsert (e : StructuredSearchEngine) (c : TwitterCrawler)
    (query_string : String) (max_size : Int) (docs : List Doc) (body : List Json)
    (hc : e.twitter_crawler = some c)
    (hcrawl : c.search query_string max_size = Except.ok docs)
    (hne : docs ≠ [])
    (hbody : build_bulk_body docs = Except.ok body) :
    e.crawl_and_index_data query_string max_size =
      [{ body := body, refresh := true }] ∧
    body = docs.flatMap spec_bulk_ops := by
  refine ⟨?_, build_bulk_body_eq_flatMap docs body hbody⟩
  have hstep : crawl_step e.twitter_crawler query_string max_size = Except.ok docs := by
    rw [crawl_step.eq_def, hc]
    exact hcrawl
  have hlen : docs.length > 0 := List.length_pos.mpr hne
  simp only [StructuredSearchEngine.crawl_and_index_data, hstep, hbody, hlen, if_true]
  cases hbulk : e.search_client_bulk body true <;> simp

/-- Witness for C6: one crawled document is upserted in one bulk call. -/
theorem spec_C6_bulk_upsert_witness :
    crawlEngine.crawl_and_index_data "alpha" 10 =
      [{ body := sampleBulkBody, refresh := true }] ∧
    sampleBulkBody = [sampleDoc].flatMap spec_bulk_ops :=
  spec_C6_bulk_upsert crawlEngine sampleCrawler "alpha" 10 [sampleDoc] sampleBulkBody
    rfl rfl (by simp) rfl

/-- **C10.** One malformed hit discards the entire candidate set: if any hit
returned by the store query has a `_source` lacking one of the nine projected
fields, the field projection raises inside `recall`'s guarded block and
`recall` returns the empty list, dropping all other well-formed hits in the
same response. -/
theorem spec_C10_malformed_hit_discards_all (e : StructuredSearchEngine)
    (q : SearchQuery) (hits : List Doc) (d : Doc) (f : String)
    (hstore : e.search_client_search "twitter" (recall_es_query q e.recall_size) =
      Except.ok hits)
    (hd : d ∈ hits) (hf : f ∈ twitter_doc_fields) (hmiss : d.lookup f = none) :
    e.recall q e.recall_size = [] := by
  have hbad : ∀ m, twitter_doc_mapper d ≠ Except.ok m := by
    intro m hm
    have hsome := twitter_doc_mapper_ok_lookup d m hm f hf
    rw [hmiss] at hsome
    cases hsome
  obtain ⟨msg, hmsg⟩ := map_hits_error_of_mem hits d hd hbad
  unfold StructuredSearchEngine.recall
  rw [hstore]
  show (match map_hits hits with
        | Except.ok results => results
        | Except.error _ => []) = []
  rw [hmsg]

/-- Witness for C10: one malformed hit among two makes recall empty. -/
theorem spec_C10_malformed_hit_discards_all_witness :
    badHitEngine.recall sampleQuery badHitEngine.recall_size = [] :=
  spec_C10_malformed_hit_discards_all badHitEngine sampleQuery [sampleDoc, badDoc]
    badDoc "text" rfl (by simp) (by simp [twitter_doc_fields]) rfl

end OpenKaito
